import Mathlib

/-!
Verification of the slideshow-video pipeline in `backend(2).py`
(`_create_video_from_images_and_music_logic` and its helpers).

Durations are modelled as exact rationals (`ℚ`): every arithmetic step the
claims talk about (setting a duration, subtracting a start time, clamping)
is exact in the source's floating-point code as well, since the claims only
compare values produced by copying or by single subtractions of the same
operands.

External media-library primitives (moviepy) are modelled only through the
duration / object-identity behaviour the source relies on; each such
definition carries a doc comment naming the primitive and the behaviour
modelled.
-/

/-- Duration of the clip produced by moviepy's `crossfadeout(fade_duration)`:
the clip progressively becomes transparent over its last `fade_duration`
seconds, and its duration is unchanged. -/
def crossfadeout_duration (clip_duration fade_duration : ℚ) : ℚ :=
  clip_duration

/-- Lines 301-304: the crossfade length actually passed to `crossfadeout` for a
slide of duration `clip_duration`.  `actual_transition = transition_duration`,
overridden by `max(0.1, clip.duration * 0.5)` when
`transition_duration >= clip.duration`. -/
def actual_transition (transition_duration clip_duration : ℚ) : ℚ :=
  if clip_duration ≤ transition_duration then max (1/10) (clip_duration * (1/2))
  else transition_duration

/-- Lines 297-306: the crossfade applied while building slide `i` out of
`num_images`: only slides other than the last get one, and only when
`transition_duration > 0`; its length is `actual_transition`. -/
def slide_crossfade (i num_images : Nat) (transition_duration clip_duration : ℚ) :
    Option ℚ :=
  if i < num_images - 1 ∧ 0 < transition_duration
  then some (actual_transition transition_duration clip_duration)
  else none

/-- Line 296-307: duration of `final_clip_for_this_image_slot` for image `i`.
Every slide clip is built with duration `image_display_duration`
(`set_duration` at lines 235 and 250, the animation composites keep
`cropped_clip.duration`), and `crossfadeout` does not change it. -/
def final_slot_duration (i num_images : Nat) (image_display_duration transition_duration : ℚ) : ℚ :=
  if i < num_images - 1 ∧ 0 < transition_duration then
    crossfadeout_duration image_display_duration
      (actual_transition transition_duration image_display_duration)
  else image_display_duration

/-- Duration of moviepy's `concatenate_videoclips(clips, method="compose")`
with the default `padding=0`: start times are the cumulative sums
`tt = cumsum([0] + [c.duration for c in clips])` and the result's duration is
`tt[-1]`, i.e. the plain sum of the clip durations (clips are laid
end-to-end; no overlap is introduced without a negative `padding`). -/
def concatenate_duration (durations : List ℚ) : ℚ :=
  durations.sum

/-- Lines 324-333: `total_video_duration = base_video.duration` where
`base_video = concatenate_videoclips(processed_image_clips, method="compose")`. -/
def total_video_duration (num_images : Nat) (image_display_duration transition_duration : ℚ) : ℚ :=
  concatenate_duration
    ((List.range num_images).map
      (fun i => final_slot_duration i num_images image_display_duration transition_duration))

/-- The pydantic `TextOverlay` model (lines 52-56).  `image_index` is an
unconstrained optional integer. -/
structure TextOverlay where
  text : String
  style : String
  image_index : Option Int
  position : String
deriving DecidableEq, Repr

/-- Line 349: `actual_trans = min(transition_duration, image_display_duration * 0.5)`,
the clamp used by the text-timing loop (distinct from `actual_transition`
used when building the slides). -/
def actual_trans (transition_duration image_display_duration : ℚ) : ℚ :=
  min transition_duration (image_display_duration * (1/2))

/-- Lines 347-350: the effective duration the text-timing loop attributes to
slide `k_idx`: the display duration, reduced by `actual_trans` when
`k_idx < len(image_paths) - 1 and transition_duration > 0`. -/
def clip_eff_duration (k_idx num_images : Nat)
    (image_display_duration transition_duration : ℚ) : ℚ :=
  if k_idx < num_images - 1 ∧ 0 < transition_duration
  then image_display_duration - actual_trans transition_duration image_display_duration
  else image_display_duration

/-- Lines 345-352: `text_start_time` for an overlay bound to `image_index`:
the sum of `clip_eff_duration` over `k_idx in range(image_index)`. -/
def text_start_time (image_index num_images : Nat)
    (image_display_duration transition_duration : ℚ) : ℚ :=
  ((List.range image_index).map
    (fun k => clip_eff_duration k num_images image_display_duration transition_duration)).sum

/-- Lines 341-366: the `(start, duration)` of the text clip appended to
`text_clips_to_composite` for one overlay, or `none` when the overlay is
skipped.  An overlay with `image_index` set and `0 <= image_index < len(processed_image_clips)`
gets the slide's start offset and `image_display_duration`; any other overlay
(including one whose index is out of range) gets `(0, total_video_duration)`.
A candidate whose end exceeds the total duration is re-cut to
`max(0, total - start)`, and only candidates with positive duration are kept. -/
def text_clip_for_overlay (t : TextOverlay) (num_images : Nat)
    (image_display_duration transition_duration tot : ℚ) : Option (ℚ × ℚ) :=
  let sd : ℚ × ℚ :=
    match t.image_index with
    | some idx =>
        if 0 ≤ idx ∧ idx < (num_images : Int) then
          (text_start_time idx.toNat num_images image_display_duration transition_duration,
           image_display_duration)
        else (0, tot)
    | none => (0, tot)
  if sd.2 ≤ 0 then none
  else
    let clipped := if tot < sd.1 + sd.2 then max 0 (tot - sd.1) else sd.2
    if 0 < clipped then some (sd.1, clipped) else none

/-- Python `str.startswith` on filenames modelled as character lists. -/
def startswith : List Char → List Char → Bool
  | [], _ => true
  | _ :: _, [] => false
  | a :: p, b :: s => a = b && startswith p s

/-- Lines 87-92: `resolve_file_id_to_path`.  The directory listing is filtered
to the filenames starting with `file_id`; an empty filter result raises 404,
otherwise the first match is joined to the directory
(`os.path.join(directory, matching_files[0])`, modelled as posix join). -/
def resolve_file_id_to_path (file_id directory : List Char)
    (dir_listing : List (List Char)) : Except String (List Char) :=
  match dir_listing.filter (fun f => startswith file_id f) with
  | [] => Except.error "404: File not found"
  | f :: _ => Except.ok (directory ++ '/' :: f)

/-- Lines 268-270: `get_y_position(t, b_offset, p_amp, p_period)` of the pan
animation: `b_offset` when `p_period is None or p_period == 0`, otherwise
`b_offset + p_amp * sin((2 * pi * t) / p_period)`. -/
noncomputable def get_y_position (t b_offset p_amp : ℝ) (p_period : Option ℝ) : ℝ :=
  match p_period with
  | none => b_offset
  | some p =>
      if p = 0 then b_offset
      else b_offset + p_amp * Real.sin ((2 * Real.pi * t) / p)

/-- Every slide slot keeps duration `d`, so the concatenated timeline lasts
`n * d` (shared helper for the C1 theorems). -/
lemma total_video_duration_eq_mul (n : Nat) (d td : ℚ) :
    total_video_duration n d td = n * d := by
  have h1 : ((List.range n).map fun i => final_slot_duration i n d td)
      = List.replicate n d := by
    refine List.eq_replicate_iff.mpr ⟨by simp, ?_⟩
    intro b hb
    rcases List.mem_map.mp hb with ⟨i, _, rfl⟩
    unfold final_slot_duration crossfadeout_duration
    split <;> rfl
  rw [total_video_duration, concatenate_duration, h1, List.sum_replicate, nsmul_eq_mul]

/-- Duration of moviepy's `Clip.subclip(t_start, t_end)` for `t_start >= 0`:
a `None` end means the clip's own end, and the result's duration is
`t_end - t_start` (no check against the source's length is performed for the
end time). -/
def subclip_duration (clip_duration t_start : ℚ) (t_end : Option ℚ) : ℚ :=
  match t_end with
  | some e => e - t_start
  | none => clip_duration - t_start

/-- Lines 425-429: the duration of `temp_audio_segment_intermediate`,
`full_audio_clip_main.subclip(music_segment_start_time, subclip_end_time)`
with `subclip_end_time = music_segment_start_time + audio_segment_duration_from_music`
when the latter is given and `None` otherwise. -/
def extracted_segment_duration (track_duration music_segment_start_time : ℚ)
    (audio_segment_duration_from_music : Option ℚ) : ℚ :=
  subclip_duration track_duration music_segment_start_time
    (audio_segment_duration_from_music.map (fun x => music_segment_start_time + x))

/-- Number of copies moviepy's `vfx.audio_loop(duration=target)` concatenates:
`nloops = int(duration / audioclip.duration) + 1` (truncating division; equals
the floor for the non-negative operands used here). -/
def audio_loop_nloops (clip_duration target : ℚ) : ℤ :=
  ⌊target / clip_duration⌋ + 1

/-- Duration of the moviepy `vfx.audio_loop(duration=target)` result: the
concatenation of `nloops` copies is passed through `set_duration(target)`,
so the returned clip lasts exactly `target`. -/
def audio_loop_duration (clip_duration target : ℚ) : ℚ :=
  target

/-- The tiling in `audio_loop` covers the target: with a positive segment the
concatenated copies last at least `target`, so `set_duration(target)` only
trims (no gap at the end). -/
lemma audio_loop_tiles_cover (clip_duration target : ℚ)
    (hc : 0 < clip_duration) (ht : 0 ≤ target) :
    target ≤ (List.replicate (audio_loop_nloops clip_duration target).toNat
      clip_duration).sum := by
  rw [List.sum_replicate, nsmul_eq_mul]
  have h1 : target / clip_duration < (⌊target / clip_duration⌋ + 1 : ℚ) :=
    Int.lt_floor_add_one _
  have h0 : (0 : ℤ) ≤ audio_loop_nloops clip_duration target := by
    have : (0 : ℤ) ≤ ⌊target / clip_duration⌋ :=
      Int.floor_nonneg.mpr (div_nonneg ht (le_of_lt hc))
    unfold audio_loop_nloops
    omega
  have h2 : ((audio_loop_nloops clip_duration target).toNat : ℚ)
      = ((audio_loop_nloops clip_duration target : ℤ) : ℚ) := by
    exact_mod_cast congrArg (fun z : ℤ => (z : ℚ)) (Int.toNat_of_nonneg h0)
  rw [h2]
  have h3 : target / clip_duration < ((audio_loop_nloops clip_duration target : ℤ) : ℚ) := by
    unfold audio_loop_nloops
    push_cast
    exact h1
  calc target = (target / clip_duration) * clip_duration := by
        field_simp
    _ ≤ ((audio_loop_nloops clip_duration target : ℤ) : ℚ) * clip_duration :=
        mul_le_mul_of_nonneg_right (le_of_lt h3) (le_of_lt hc)

/-- Lines 422-445: the audio-processing block, given the durations involved
(the source track's duration, the requested start and optional segment
length, and the visual timeline's duration `total_video_duration`).  Returns
`Except.error` when the block returns a failure, `Except.ok none` when the
video proceeds with no audio track, and `Except.ok (some a)` when an audio
clip of duration `a` is attached with `set_audio`.  (The preceding
reader-health checks of lines 404-420 are modelled separately in the
pipeline model below; this definition assumes a readable reader.) -/
def audio_segment_processing (track_duration music_segment_start_time : ℚ)
    (audio_segment_duration_from_music : Option ℚ)
    (total_video_duration : ℚ) : Except String (Option ℚ) :=
  if track_duration ≤ music_segment_start_time then
    Except.error "Music start time is beyond the audio's total duration."
  else if extracted_segment_duration track_duration music_segment_start_time
      audio_segment_duration_from_music = 0 then
    Except.ok none
  else if extracted_segment_duration track_duration music_segment_start_time
      audio_segment_duration_from_music < total_video_duration then
    Except.ok (some (audio_loop_duration
      (extracted_segment_duration track_duration music_segment_start_time
        audio_segment_duration_from_music) total_video_duration))
  else
    Except.ok (some (subclip_duration
      (extracted_segment_duration track_duration music_segment_start_time
        audio_segment_duration_from_music) 0 (some total_video_duration)))

/-- Lines 371-388: the duration of `final_video_clip` right before audio is
attached.  With text clips, the composite is `set_duration(total_video_duration)`
(line 377); without, `final_video_clip` is `base_video` itself, whose duration
is `total_video_duration` by definition (line 333), and lines 385-387 force
`total_video_duration` if it somehow differed. -/
def final_video_duration (base_video_duration : ℚ) (hasTextClips : Bool) : ℚ :=
  if hasTextClips then base_video_duration
  else if base_video_duration = base_video_duration then base_video_duration
  else base_video_duration

/-- C1 (counterexample): with 3 images at 3s display each and a 1s transition,
the concatenated visual timeline lasts 9s, not the claimed 3×3 − 2×1 = 7s:
`concatenate_videoclips` is called without negative padding, so the
crossfaded slides do not overlap. -/
theorem C1_counterexample :
    total_video_duration 3 3 1 = 9 ∧ total_video_duration 3 3 1 ≠ 3 * 3 - 2 * 1 := by
  rw [total_video_duration_eq_mul]
  norm_num

/-- C1 (amended): the final visual timeline's duration equals the plain sum of
the per-slide display durations, `num_images * image_display_duration`;
nothing is subtracted for transitions, because the crossfade does not shorten
a slide and the concatenation introduces no overlap. -/
theorem C1_total_duration_amended (n : Nat) (d td : ℚ) :
    total_video_duration n d td = n * d :=
  total_video_duration_eq_mul n d td

/-- C3 (counterexample): for the first of two slides of duration 3 with
transition 2, the crossfade applied is 2 seconds, not
`min(transition_duration, 0.5 * slide_duration) = 1.5`: the clamp fires only
when the transition is at least the slide duration. -/
theorem C3_counterexample :
    slide_crossfade 0 2 2 3 = some 2 ∧ ((2 : ℚ) ≠ min 2 (3 * (1/2))) := by
  constructor
  · norm_num [slide_crossfade, actual_transition]
  · norm_num [min_def]

/-- C3 (amended): every slide except the last, when `transition_duration > 0`,
fades out over `transition_duration` itself when that is below the slide's
duration (so the fade may exceed half the slide), and over
`max(0.1, 0.5 * slide_duration)` when `transition_duration >= slide_duration`;
for slides of at least 0.2s the clamped fade never exceeds the slide's
duration, and the fade never changes the slide's duration (so the remaining
duration is never negative). -/
theorem C3_transition_clamp_amended (i n : Nat) (td d : ℚ)
    (hi : i < n - 1) (htd : 0 < td) :
    slide_crossfade i n td d = some (if d ≤ td then max (1/10) (d * (1/2)) else td) ∧
    (d ≤ td → (1/5 : ℚ) ≤ d → actual_transition td d ≤ d) ∧
    crossfadeout_duration d (actual_transition td d) = d := by
  refine ⟨?_, ?_, rfl⟩
  · unfold slide_crossfade actual_transition
    rw [if_pos ⟨hi, htd⟩]
  · intro hdtd hd5
    unfold actual_transition
    rw [if_pos hdtd]
    refine max_le (by linarith) (by linarith)

/-- C3 witness: instantiation with transition 5 on a 3s slide. -/
theorem C3_transition_clamp_amended_witness :
    slide_crossfade 0 3 5 3 = some (if (3 : ℚ) ≤ 5 then max (1/10) (3 * (1/2)) else 5) ∧
    ((3 : ℚ) ≤ 5 → (1/5 : ℚ) ≤ 3 → actual_transition 5 3 ≤ 3) ∧
    crossfadeout_duration 3 (actual_transition 5 3) = 3 :=
  C3_transition_clamp_amended 0 3 5 3 (by norm_num) (by norm_num)

/-- C4 (counterexample): an overlay bound to `image_index=2` with only 2
images (total timeline 6s) is NOT dropped: the range test at line 344 fails
and the overlay falls through to the global path, yielding a text layer
spanning `(0, 6)`. -/
theorem C4_counterexample :
    text_clip_for_overlay ⟨"hello", "Minimal", some 2, "bottom"⟩ 2 3 1 6 = some (0, 6) ∧
    text_clip_for_overlay ⟨"hello", "Minimal", some 2, "bottom"⟩ 2 3 1 6 ≠ none := by
  have h : text_clip_for_overlay ⟨"hello", "Minimal", some 2, "bottom"⟩ 2 3 1 6
      = some (0, 6) := by
    norm_num [text_clip_for_overlay]
  exact ⟨h, by rw [h]; exact Option.some_ne_none _⟩

/-- C4 (amended): an overlay whose `image_index` is out of range (negative or
at least the number of images) is treated as a global overlay: it contributes
a text layer starting at 0 and lasting the whole timeline (whenever the
timeline duration is positive), and rendering proceeds with it. -/
theorem C4_out_of_range_global_amended (t : TextOverlay) (idx : Int) (n : Nat)
    (d td tot : ℚ) (hidx : t.image_index = some idx)
    (hout : ¬(0 ≤ idx ∧ idx < (n : Int))) (htot : 0 < tot) :
    text_clip_for_overlay t n d td tot = some (0, tot) := by
  unfold text_clip_for_overlay
  rw [hidx]
  simp only [hout, if_false]
  rw [if_neg (not_le.mpr htot)]
  have hne : ¬ tot < 0 + tot := by simp
  rw [if_neg hne, if_pos htot]

/-- C4 witness: a negative index with 2 images. -/
theorem C4_out_of_range_global_amended_witness :
    text_clip_for_overlay ⟨"a", "Minimal", some (-1), "top"⟩ 2 3 1 6 = some (0, 6) :=
  C4_out_of_range_global_amended ⟨"a", "Minimal", some (-1), "top"⟩ (-1) 2 3 1 6
    rfl (by decide) (by decide)

/-- C5: an overlay bound to a valid image index `k` starts at the sum of the
effective durations of slides `0..k-1` (each the display duration reduced by
the clamped transition when a transition follows it), lasts the display
duration, is re-cut to end exactly at the timeline boundary when it would
extend past it, and is dropped when the re-cut leaves no positive duration. -/
theorem C5_text_overlay_timing (t : TextOverlay) (idx : Int) (n : Nat)
    (d td tot : ℚ) (hidx : t.image_index = some idx) (h0 : 0 ≤ idx)
    (hn : idx < (n : Int)) (hd : 0 < d) :
    text_clip_for_overlay t n d td tot =
      (if text_start_time idx.toNat n d td + d ≤ tot
       then some (text_start_time idx.toNat n d td, d)
       else if 0 < tot - text_start_time idx.toNat n d td
         then some (text_start_time idx.toNat n d td, tot - text_start_time idx.toNat n d td)
         else none) := by
  unfold text_clip_for_overlay
  rw [hidx]
  simp only [h0, hn, and_self, if_true]
  rw [if_neg (not_le.mpr hd)]
  by_cases hend : tot < text_start_time idx.toNat n d td + d
  · rw [if_pos hend, if_neg (not_le.mpr hend)]
    by_cases hpos : 0 < tot - text_start_time idx.toNat n d td
    · rw [if_pos hpos, max_eq_right (le_of_lt hpos), if_pos hpos]
    · rw [max_eq_left (le_of_not_lt hpos), if_neg (lt_irrefl 0), if_neg hpos]
  · rw [if_neg hend, if_pos hd, if_pos (le_of_not_lt hend)]

/-- C5 witness: overlay on slide 1 of 2 (3s slides, 1s transition, 6s total):
it starts at the effective duration 3 − min(1, 1.5) = 2 of slide 0 and lasts 3s. -/
theorem C5_text_overlay_timing_witness :
    text_clip_for_overlay ⟨"x", "Minimal", some 1, "bottom"⟩ 2 3 1 6 = some (2, 3) := by
  have h := C5_text_overlay_timing ⟨"x", "Minimal", some 1, "bottom"⟩ 1 2 3 1 6
    rfl (by decide) (by decide) (by norm_num)
  have hr : List.range 1 = [0] := rfl
  rw [h]
  norm_num [text_start_time, clip_eff_duration, actual_trans, hr, min_def]

/-- C9: `resolve_file_id_to_path` fails (404) exactly when no filename in the
listing starts with `file_id`; for the empty `file_id` on a non-empty
directory it returns the path of the first listed file. -/
theorem C9_resolve_file_id (file_id directory : List Char)
    (dir_listing : List (List Char)) :
    ((∃ e, resolve_file_id_to_path file_id directory dir_listing = Except.error e) ↔
      ∀ f ∈ dir_listing, startswith file_id f = false) ∧
    (∀ f rest, dir_listing = f :: rest →
      resolve_file_id_to_path [] directory dir_listing =
        Except.ok (directory ++ '/' :: f)) := by
  constructor
  · constructor
    · rintro ⟨e, he⟩ f hf
      unfold resolve_file_id_to_path at he
      rcases hfil : dir_listing.filter (fun g => startswith file_id g) with _ | ⟨g, gs⟩
      · have := List.filter_eq_nil_iff.mp hfil f hf
        simpa using this
      · rw [hfil] at he
        exact absurd he (by simp)
    · intro hall
      have hfil : dir_listing.filter (fun g => startswith file_id g) = [] :=
        List.filter_eq_nil_iff.mpr (fun f hf => by simp [hall f hf])
      refine ⟨"404: File not found", ?_⟩
      unfold resolve_file_id_to_path
      rw [hfil]
  · rintro f rest rfl
    unfold resolve_file_id_to_path
    have hsw : startswith [] f = true := rfl
    simp only [List.filter_cons, hsw, if_pos]

/-- C9 witness: empty id on listing `["a", "b"]` under directory `"u"`. -/
theorem C9_resolve_file_id_witness :
    resolve_file_id_to_path [] ['u'] [['a'], ['b']] =
      Except.ok (['u'] ++ '/' :: ['a']) :=
  (C9_resolve_file_id [] ['u'] [['a'], ['b']]).2 ['a'] [['b']] rfl

/-- C10: the pan animation's vertical-position function is total: returns the
base offset when the period is `None` or 0 (no division happens), otherwise
`b_offset + p_amp * sin(2*pi*t / p_period)`, which equals the base offset at
`t = 0` for any period. -/
theorem C10_get_y_position_total (t b a q : ℝ) :
    get_y_position t b a none = b ∧
    get_y_position t b a (some 0) = b ∧
    (get_y_position t b a (some q) =
      if q = 0 then b else b + a * Real.sin ((2 * Real.pi * t) / q)) ∧
    get_y_position 0 b a (some q) = b ∧
    get_y_position 0 b a none = b := by
  refine ⟨rfl, by simp [get_y_position], rfl, ?_, rfl⟩
  by_cases hq : q = 0
  · simp [get_y_position, hq]
  · simp [get_y_position, hq]

/-- C2: whenever the audio block attaches an audio clip (the extracted segment
has positive duration), the attached clip's duration equals the final visual
timeline's duration exactly: the loop branch ends with
`set_duration(total_video_duration)` and the truncate branch with
`subclip(0, total_video_duration)`, both yielding precisely that value. -/
theorem C2_audio_duration_eq_visual (track_duration start tot a : ℚ)
    (segdur : Option ℚ) (hasTextClips : Bool)
    (h : audio_segment_processing track_duration start segdur tot
      = Except.ok (some a)) :
    a = final_video_duration tot hasTextClips := by
  have hv : final_video_duration tot hasTextClips = tot := by
    unfold final_video_duration
    cases hasTextClips <;> simp
  rw [hv]
  unfold audio_segment_processing at h
  split at h
  · exact absurd h (by simp)
  · split at h
    · exact absurd h (by simp)
    · split at h
      · rw [Except.ok.injEq, Option.some.injEq] at h
        rw [← h]
        rfl
      · rw [Except.ok.injEq, Option.some.injEq] at h
        rw [← h]
        unfold subclip_duration
        exact sub_zero tot

/-- C2 witness: a 10s track from 0s bound to a 7s timeline is truncated to
exactly 7s. -/
theorem C2_audio_duration_eq_visual_witness :
    audio_segment_processing 10 0 none 7 = Except.ok (some 7) ∧
    (7 : ℚ) = final_video_duration 7 false := by
  have h : audio_segment_processing 10 0 none 7 = Except.ok (some 7) := by
    norm_num [audio_segment_processing, extracted_segment_duration, subclip_duration]
  exact ⟨h, C2_audio_duration_eq_visual 10 0 7 7 none false h⟩

/-- C7: given a readable track of positive duration, the audio block fails
exactly when `music_segment_start_time >= track_duration`; and when the
extracted segment's duration is exactly 0 the block succeeds with no audio
track attached (silent video). -/
theorem C7_audio_fail_iff (track_duration start tot : ℚ) (segdur : Option ℚ)
    (hpos : 0 < track_duration) :
    ((∃ e, audio_segment_processing track_duration start segdur tot
        = Except.error e) ↔ track_duration ≤ start) ∧
    (start < track_duration →
      extracted_segment_duration track_duration start segdur = 0 →
      audio_segment_processing track_duration start segdur tot
        = Except.ok none) := by
  constructor
  · constructor
    · rintro ⟨e, he⟩
      by_contra hlt
      unfold audio_segment_processing at he
      rw [if_neg hlt] at he
      split at he
      · exact absurd he (by simp)
      · split at he
        · exact absurd he (by simp)
        · exact absurd he (by simp)
    · intro hle
      exact ⟨_, by unfold audio_segment_processing; rw [if_pos hle]⟩
  · intro hlt hseg
    unfold audio_segment_processing
    rw [if_neg (not_le.mpr hlt), if_pos hseg]

/-- C7 witness: a 5s track with a zero-length requested segment at 2s:
no failure, video proceeds without audio. -/
theorem C7_audio_fail_iff_witness :
    audio_segment_processing 5 2 (some 0) 4 = Except.ok none :=
  (C7_audio_fail_iff 5 2 4 (some 0) (by norm_num)).2 (by norm_num)
    (by norm_num [extracted_segment_duration, subclip_duration])

/-- Identity of the Python objects held by the cleanup-relevant variables of
`_create_video_from_images_and_music_logic`.  Each constructor corresponds to
one allocation site: moviepy clip transforms (`set_duration`, `set_audio`,
`fx`, `subclip`, `crossfadeout`, ...) are outplace, returning a fresh object,
so a variable rebinding to a transform result holds a new identity, while a
plain Python assignment (`final_video_clip = base_video`, line 380) aliases
the same object. -/
inductive Handle where
  | slide (i : Nat)
  | textClip (j : Nat)
  | baseVideo
  | compositeTimed
  | finalSilent
  | finalWithAudio
  | fullAudio
  | tempSegment
  | audioLooped
  | audioTruncated
deriving DecidableEq, Repr

/-- The cleanup-relevant variables of the pipeline at the moment the `finally`
block of lines 483-516 runs: the list `processed_image_clips` (one handle per
appended per-slide clip; the intermediate per-slide outplace copies are never
closed and own no separate reader), `text_clips_to_composite`, and the five
nullable clip variables declared at lines 208-215. -/
structure LogicState where
  processed_image_clips : List Handle
  text_clips_to_composite : List Handle
  base_video : Option Handle
  final_video_clip : Option Handle
  full_audio_clip_main : Option Handle
  temp_audio_segment_intermediate : Option Handle
  audio_segment_final_for_video : Option Handle
deriving DecidableEq, Repr

/-- State in which every variable still holds its initial `None` / `[]`. -/
def emptyState : LogicState :=
  ⟨[], [], none, none, none, none, none⟩

/-- Number of text clips appended by the loop of lines 340-366: one per
overlay for which `text_clip_for_overlay` yields a kept clip. -/
def kept_text_clips (texts : List TextOverlay) (num_images : Nat)
    (image_display_duration transition_duration tot : ℚ) : Nat :=
  (texts.filter (fun t =>
    (text_clip_for_overlay t num_images image_display_duration
      transition_duration tot).isSome)).length

/-- Close calls issued for one nullable clip variable by a guard of the form
`if var and hasattr(var, "close"): var.close()`. -/
def option_close : Option Handle → List Handle
  | some c => [c]
  | none => []

/-- Lines 507-511: `temp_audio_segment_intermediate` is closed only when it is
set and `(audio_segment_final_for_video is None or
temp_audio_segment_intermediate is not audio_segment_final_for_video)`. -/
def temp_close_part (s : LogicState) : List Handle :=
  match s.temp_audio_segment_intermediate with
  | some c =>
      if s.audio_segment_final_for_video = none ∨
         ¬ s.audio_segment_final_for_video = some c
      then [c] else []
  | none => []

/-- Close calls of the `finally` block after the `final_video_clip` close:
lines 488-515 (base video, each processed image clip, each text clip, the
final audio segment, the guarded intermediate segment, the source audio). -/
def closesTail (s : LogicState) : List Handle :=
  option_close s.base_video ++
  (s.processed_image_clips ++
  (s.text_clips_to_composite ++
  (option_close s.audio_segment_final_for_video ++
  (temp_close_part s ++
   option_close s.full_audio_clip_main))))

/-- Lines 483-516: the full sequence of `close()` calls (by object identity)
issued by the `finally` block, in source order. -/
def finally_closes (s : LogicState) : List Handle :=
  option_close s.final_video_clip ++ closesTail s

/-- The inputs the pipeline model branches on: the request parameters of
`_create_video_from_images_and_music_logic` plus the observable facts about
the audio file (existence, readability, byte size, whether moviepy's reader
initializes and serves frames, the track duration it reports) and whether the
final `write_videofile` call succeeds. -/
structure LogicInput where
  num_images : Nat
  image_display_duration : ℚ
  transition_duration : ℚ
  music_segment_start_time : ℚ
  audio_segment_duration_from_music : Option ℚ
  texts : List TextOverlay
  audio_path : String
  audio_file_exists : Bool
  audio_file_readable : Bool
  audio_file_size : Nat
  audio_reader_ok : Bool
  track_duration : ℚ
  encode_ok : Bool
deriving DecidableEq, Repr

/-- Control-flow model of `_create_video_from_images_and_music_logic`
(lines 193-518) at the granularity of handle allocation and the outcome:

* `num_images = 0` skips the image loop and returns the "No valid image
  clips" failure with nothing allocated (line 320-321).
* a non-positive `image_display_duration` makes the validity gate at
  line 309 raise for image 0 before anything is appended; the `except` at
  line 479 converts it into an internal error.
* otherwise one handle per per-slide clip is appended, `base_video` is the
  concatenation (line 324) and `total_video_duration` its duration
  (line 333); the text loop appends one handle per kept overlay
  (lines 340-366).  With kept text clips, `final_video_clip` is the
  `set_duration` copy of the composite (lines 376-377, a fresh object);
  without any, `final_video_clip = base_video` (line 380) ALIASES the base
  video (the slides are built at the target size and the base duration equals
  `total_video_duration`, so the re-resize of lines 381-383 and the forcing
  of lines 385-387 do not run).
* the audio file checks of lines 397-402 fail before `AudioFileClip` is
  constructed; afterwards `full_audio_clip_main` is set (line 405), the
  reader checks of lines 408-420 may fail, then the start-time check
  (line 422); `temp_audio_segment_intermediate` is the subclip (line 429).
* per the segment duration: `set_audio(None)` (line 433) rebinds
  `final_video_clip` to a fresh outplace copy; the loop / truncate branches
  create a fresh audio object and `set_audio` (line 444) rebinds
  `final_video_clip` to a fresh copy.
* `write_videofile` (line 474) either succeeds or raises (converted at
  line 479); either way the state seen by `finally` is the same. -/
def create_video_from_images_and_music_logic (inp : LogicInput) :
    Except String Unit × LogicState :=
  if inp.num_images = 0 then
    (Except.error "No valid image clips could be created.", emptyState)
  else if inp.image_display_duration ≤ 0 then
    (Except.error "Internal error during video generation: ValueError", emptyState)
  else
    let slides := (List.range inp.num_images).map Handle.slide
    let tot := total_video_duration inp.num_images inp.image_display_duration
      inp.transition_duration
    let m := kept_text_clips inp.texts inp.num_images inp.image_display_duration
      inp.transition_duration tot
    let textClips := (List.range m).map Handle.textClip
    let final0 := if 0 < m then Handle.compositeTimed else Handle.baseVideo
    if inp.audio_file_exists = false then
      (Except.error ("Audio file does not exist at path: " ++ inp.audio_path),
        ⟨slides, textClips, some Handle.baseVideo, some final0, none, none, none⟩)
    else if inp.audio_file_readable = false then
      (Except.error ("Audio file is not readable at path: " ++ inp.audio_path),
        ⟨slides, textClips, some Handle.baseVideo, some final0, none, none, none⟩)
    else if inp.audio_file_size = 0 then
      (Except.error ("Audio file is empty at path: " ++ inp.audio_path),
        ⟨slides, textClips, some Handle.baseVideo, some final0, none, none, none⟩)
    else if inp.audio_reader_ok = false then
      (Except.error "Failed to initialize audio reader for the main audio file.",
        ⟨slides, textClips, some Handle.baseVideo, some final0,
          some Handle.fullAudio, none, none⟩)
    else if inp.track_duration ≤ inp.music_segment_start_time then
      (Except.error "Music start time is beyond the audio's total duration.",
        ⟨slides, textClips, some Handle.baseVideo, some final0,
          some Handle.fullAudio, none, none⟩)
    else
      let seg := extracted_segment_duration inp.track_duration
        inp.music_segment_start_time inp.audio_segment_duration_from_music
      let s3 : LogicState :=
        if seg = 0 then
          ⟨slides, textClips, some Handle.baseVideo, some Handle.finalSilent,
            some Handle.fullAudio, some Handle.tempSegment, none⟩
        else if seg < tot then
          ⟨slides, textClips, some Handle.baseVideo, some Handle.finalWithAudio,
            some Handle.fullAudio, some Handle.tempSegment, some Handle.audioLooped⟩
        else
          ⟨slides, textClips, some Handle.baseVideo, some Handle.finalWithAudio,
            some Handle.fullAudio, some Handle.tempSegment, some Handle.audioTruncated⟩
      if inp.encode_ok then (Except.ok (), s3)
      else (Except.error "Internal error during video generation: write failed", s3)

/-- Lines 610-619 of `create_video_from_images`: on success the output path is
returned; on failure the output file is removed when present.  Value: whether
a file persists at `output_video_path` after the request completes. -/
def output_file_after_cleanup (success file_present_on_disk : Bool) : Bool :=
  if success then file_present_on_disk else false

/-- `h` is referenced by one of the cleanup-relevant variables of `s`. -/
def tracked (s : LogicState) (h : Handle) : Prop :=
  h ∈ s.processed_image_clips ∨ h ∈ s.text_clips_to_composite ∨
  s.base_video = some h ∨ s.final_video_clip = some h ∨
  s.full_audio_clip_main = some h ∨
  s.temp_audio_segment_intermediate = some h ∨
  s.audio_segment_final_for_video = some h

/-- Shape invariant of every state the pipeline model can present to the
`finally` block: which handles each variable can hold. -/
def StateInv (s : LogicState) : Prop :=
  (∃ n, s.processed_image_clips = (List.range n).map Handle.slide) ∧
  (∃ m, s.text_clips_to_composite = (List.range m).map Handle.textClip) ∧
  (s.base_video = none ∨ s.base_video = some Handle.baseVideo) ∧
  (s.final_video_clip = none ∨ s.final_video_clip = some Handle.baseVideo ∨
    s.final_video_clip = some Handle.compositeTimed ∨
    s.final_video_clip = some Handle.finalSilent ∨
    s.final_video_clip = some Handle.finalWithAudio) ∧
  (s.full_audio_clip_main = none ∨ s.full_audio_clip_main = some Handle.fullAudio) ∧
  (s.temp_audio_segment_intermediate = none ∨
    s.temp_audio_segment_intermediate = some Handle.tempSegment) ∧
  (s.audio_segment_final_for_video = none ∨
    s.audio_segment_final_for_video = some Handle.audioLooped ∨
    s.audio_segment_final_for_video = some Handle.audioTruncated)

/-- Number of `close()` calls issued on object `h` in a close sequence. -/
def countH (h : Handle) : List Handle → Nat
  | [] => 0
  | a :: l => (if a = h then 1 else 0) + countH h l

lemma countH_append (h : Handle) (l1 l2 : List Handle) :
    countH h (l1 ++ l2) = countH h l1 + countH h l2 := by
  induction l1 with
  | nil => simp [countH]
  | cons a l ih => simp [countH, ih, Nat.add_assoc]

lemma countH_option (h : Handle) (o : Option Handle) :
    countH h (option_close o) = if o = some h then 1 else 0 := by
  cases o with
  | none => simp [option_close, countH]
  | some a =>
      by_cases hah : a = h
      · simp [option_close, countH, hah]
      · simp [option_close, countH, hah]

lemma countH_eq_zero_of_not_mem {h : Handle} {l : List Handle} (hn : h ∉ l) :
    countH h l = 0 := by
  induction l with
  | nil => rfl
  | cons a l ih =>
      rw [List.mem_cons, not_or] at hn
      rw [countH, if_neg (fun e => hn.1 e.symm), ih hn.2]

lemma countH_pos_of_mem {h : Handle} {l : List Handle} (hm : h ∈ l) :
    1 ≤ countH h l := by
  induction l with
  | nil => exact absurd hm (List.not_mem_nil h)
  | cons a l ih =>
      rw [List.mem_cons] at hm
      rcases hm with rfl | hm
      · rw [countH, if_pos rfl]
        omega
      · rw [countH]
        have := ih hm
        omega

lemma countH_le_one_of_nodup {h : Handle} {l : List Handle} (hn : l.Nodup) :
    countH h l ≤ 1 := by
  induction l with
  | nil => simp [countH]
  | cons a l ih =>
      rw [List.nodup_cons] at hn
      by_cases hah : a = h
      · subst hah
        rw [countH, if_pos rfl, countH_eq_zero_of_not_mem hn.1]
      · rw [countH, if_neg hah]
        have := ih hn.2
        omega

lemma nodup_slides (n : Nat) : ((List.range n).map Handle.slide).Nodup :=
  (List.nodup_range n).map (fun a b e => by
    have := Handle.slide.injEq a b
    rw [this] at e
    exact e)

lemma nodup_textClips (m : Nat) : ((List.range m).map Handle.textClip).Nodup :=
  (List.nodup_range m).map (fun a b e => by
    have := Handle.textClip.injEq a b
    rw [this] at e
    exact e)

lemma countH_slides_of_ne {h : Handle} (hns : ∀ i, h ≠ Handle.slide i) (n : Nat) :
    countH h ((List.range n).map Handle.slide) = 0 := by
  refine countH_eq_zero_of_not_mem ?_
  intro hm
  rcases List.mem_map.mp hm with ⟨i, _, hi⟩
  exact hns i hi.symm

lemma countH_textClips_of_ne {h : Handle} (hns : ∀ j, h ≠ Handle.textClip j) (m : Nat) :
    countH h ((List.range m).map Handle.textClip) = 0 := by
  refine countH_eq_zero_of_not_mem ?_
  intro hm
  rcases List.mem_map.mp hm with ⟨j, _, hj⟩
  exact hns j hj.symm

lemma inv_empty : StateInv emptyState :=
  ⟨⟨0, rfl⟩, ⟨0, rfl⟩, Or.inl rfl, Or.inl rfl, Or.inl rfl, Or.inl rfl, Or.inl rfl⟩

lemma inv_state (n m : Nat) (f fu tm af : Option Handle)
    (hf : f = none ∨ f = some Handle.baseVideo ∨ f = some Handle.compositeTimed ∨
      f = some Handle.finalSilent ∨ f = some Handle.finalWithAudio)
    (hfu : fu = none ∨ fu = some Handle.fullAudio)
    (htm : tm = none ∨ tm = some Handle.tempSegment)
    (haf : af = none ∨ af = some Handle.audioLooped ∨ af = some Handle.audioTruncated) :
    StateInv ⟨(List.range n).map Handle.slide, (List.range m).map Handle.textClip,
      some Handle.baseVideo, f, fu, tm, af⟩ :=
  ⟨⟨n, rfl⟩, ⟨m, rfl⟩, Or.inr rfl, hf, hfu, htm, haf⟩

lemma final0_cases (m : Nat) :
    some (if 0 < m then Handle.compositeTimed else Handle.baseVideo) = none ∨
    some (if 0 < m then Handle.compositeTimed else Handle.baseVideo) = some Handle.baseVideo ∨
    some (if 0 < m then Handle.compositeTimed else Handle.baseVideo) = some Handle.compositeTimed ∨
    some (if 0 < m then Handle.compositeTimed else Handle.baseVideo) = some Handle.finalSilent ∨
    some (if 0 < m then Handle.compositeTimed else Handle.baseVideo) = some Handle.finalWithAudio := by
  split
  · exact Or.inr (Or.inr (Or.inl rfl))
  · exact Or.inr (Or.inl rfl)

/-- Every state the pipeline model hands to the `finally` block satisfies the
shape invariant. -/
lemma run_state_inv (inp : LogicInput) :
    StateInv (create_video_from_images_and_music_logic inp).2 := by
  unfold create_video_from_images_and_music_logic
  split
  · exact inv_empty
  split
  · exact inv_empty
  split
  · exact inv_state _ _ _ _ _ _ (final0_cases _) (Or.inl rfl) (Or.inl rfl) (Or.inl rfl)
  split
  · exact inv_state _ _ _ _ _ _ (final0_cases _) (Or.inl rfl) (Or.inl rfl) (Or.inl rfl)
  split
  · exact inv_state _ _ _ _ _ _ (final0_cases _) (Or.inl rfl) (Or.inl rfl) (Or.inl rfl)
  split
  · exact inv_state _ _ _ _ _ _ (final0_cases _) (Or.inr rfl) (Or.inl rfl) (Or.inl rfl)
  split
  · exact inv_state _ _ _ _ _ _ (final0_cases _) (Or.inr rfl) (Or.inl rfl) (Or.inl rfl)
  split
  all_goals
    dsimp only
    split
    · exact inv_state _ _ _ _ _ _ (Or.inr (Or.inr (Or.inr (Or.inl rfl))))
        (Or.inr rfl) (Or.inr rfl) (Or.inl rfl)
    split
    · exact inv_state _ _ _ _ _ _ (Or.inr (Or.inr (Or.inr (Or.inr rfl))))
        (Or.inr rfl) (Or.inr rfl) (Or.inr (Or.inl rfl))
    · exact inv_state _ _ _ _ _ _ (Or.inr (Or.inr (Or.inr (Or.inr rfl))))
        (Or.inr rfl) (Or.inr rfl) (Or.inr (Or.inr rfl))

lemma countH_temp_part (h : Handle) (s : LogicState)
    (haf : s.audio_segment_final_for_video = none ∨
      s.audio_segment_final_for_video = some Handle.audioLooped ∨
      s.audio_segment_final_for_video = some Handle.audioTruncated)
    (htm : s.temp_audio_segment_intermediate = none ∨
      s.temp_audio_segment_intermediate = some Handle.tempSegment) :
    countH h (temp_close_part s) =
      if s.temp_audio_segment_intermediate = some h then 1 else 0 := by
  rcases htm with htm | htm
  · simp only [temp_close_part, htm]
    simp [countH]
  · have hg : s.audio_segment_final_for_video = none ∨
        ¬ s.audio_segment_final_for_video = some Handle.tempSegment := by
      rcases haf with ha | ha | ha
      · exact Or.inl ha
      · exact Or.inr (by rw [ha]; simp)
      · exact Or.inr (by rw [ha]; simp)
    simp only [temp_close_part, htm]
    rw [if_pos hg]
    by_cases hth : Handle.tempSegment = h
    · subst hth
      simp [countH]
    · rw [countH, if_neg hth, countH]
      simp [hth]

lemma countH_closes (h : Handle) (s : LogicState)
    (haf : s.audio_segment_final_for_video = none ∨
      s.audio_segment_final_for_video = some Handle.audioLooped ∨
      s.audio_segment_final_for_video = some Handle.audioTruncated)
    (htm : s.temp_audio_segment_intermediate = none ∨
      s.temp_audio_segment_intermediate = some Handle.tempSegment) :
    countH h (finally_closes s) =
      (if s.final_video_clip = some h then 1 else 0) +
      ((if s.base_video = some h then 1 else 0) +
      (countH h s.processed_image_clips +
      (countH h s.text_clips_to_composite +
      ((if s.audio_segment_final_for_video = some h then 1 else 0) +
      ((if s.temp_audio_segment_intermediate = some h then 1 else 0) +
      (if s.full_audio_clip_main = some h then 1 else 0)))))) := by
  rw [finally_closes, closesTail]
  rw [countH_append, countH_append, countH_append, countH_append, countH_append,
    countH_append]
  rw [countH_option, countH_option, countH_option, countH_option,
    countH_temp_part h s haf htm]

lemma ite_count_zero2 {o : Option Handle} {x h : Handle}
    (ho : o = none ∨ o = some x) (hxh : ¬ x = h) :
    (if o = some h then 1 else 0) = 0 := by
  rcases ho with e | e <;> rw [e] <;> simp [hxh]

lemma ite_count_zero3 {o : Option Handle} {x y h : Handle}
    (ho : o = none ∨ o = some x ∨ o = some y) (hxh : ¬ x = h) (hyh : ¬ y = h) :
    (if o = some h then 1 else 0) = 0 := by
  rcases ho with e | e | e <;> rw [e] <;> simp [hxh, hyh]

lemma ite_count_zero5 {o : Option Handle} {x y z w h : Handle}
    (ho : o = none ∨ o = some x ∨ o = some y ∨ o = some z ∨ o = some w)
    (hx : ¬ x = h) (hy : ¬ y = h) (hz : ¬ z = h) (hw : ¬ w = h) :
    (if o = some h then 1 else 0) = 0 := by
  rcases ho with e | e | e | e | e <;> rw [e] <;> simp [hx, hy, hz, hw]

lemma ite_count_le_one (o : Option Handle) (h : Handle) :
    (if o = some h then 1 else 0) ≤ 1 := by
  split <;> omega

/-- Exact accounting of the `finally` block's close calls for any state
satisfying the shape invariant: every object still referenced by a cleanup
variable is closed at least once, no object is closed more than twice, and an
object is closed twice exactly when it is the base video still aliased by
`final_video_clip`. -/
lemma cleanup_counts (s : LogicState) (hI : StateInv s) (h : Handle) :
    (tracked s h → 1 ≤ countH h (finally_closes s)) ∧
    countH h (finally_closes s) ≤ 2 ∧
    (countH h (finally_closes s) = 2 ↔
      h = Handle.baseVideo ∧ s.final_video_clip = some Handle.baseVideo ∧
        s.base_video = some Handle.baseVideo) := by
  obtain ⟨⟨n, hs⟩, ⟨m, ht⟩, hb, hf, hfu, htm, haf⟩ := hI
  rw [countH_closes h s haf htm, hs, ht]
  cases h with
  | slide i =>
      have hF : (if s.final_video_clip = some (Handle.slide i) then 1 else 0) = 0 :=
        ite_count_zero5 hf (by simp) (by simp) (by simp) (by simp)
      have hB : (if s.base_video = some (Handle.slide i) then 1 else 0) = 0 :=
        ite_count_zero2 hb (by simp)
      have hA : (if s.audio_segment_final_for_video = some (Handle.slide i) then 1 else 0) = 0 :=
        ite_count_zero3 haf (by simp) (by simp)
      have hTm : (if s.temp_audio_segment_intermediate = some (Handle.slide i) then 1 else 0) = 0 :=
        ite_count_zero2 htm (by simp)
      have hFu : (if s.full_audio_clip_main = some (Handle.slide i) then 1 else 0) = 0 :=
        ite_count_zero2 hfu (by simp)
      have hT : countH (Handle.slide i) ((List.range m).map Handle.textClip) = 0 :=
        countH_textClips_of_ne (fun j => by simp) m
      have hS : countH (Handle.slide i) ((List.range n).map Handle.slide) ≤ 1 :=
        countH_le_one_of_nodup (nodup_slides n)
      rw [hF, hB, hA, hTm, hFu, hT]
      refine ⟨?_, by omega, ?_⟩
      · intro htr
        unfold tracked at htr
        rw [hs, ht] at htr
        rcases htr with hm | hm | hm | hm | hm | hm | hm
        · have := countH_pos_of_mem hm
          omega
        · exact absurd hm (by simp)
        · rcases hb with e | e <;> rw [e] at hm <;> exact absurd hm (by simp)
        · rcases hf with e | e | e | e | e <;> rw [e] at hm <;> exact absurd hm (by simp)
        · rcases hfu with e | e <;> rw [e] at hm <;> exact absurd hm (by simp)
        · rcases htm with e | e <;> rw [e] at hm <;> exact absurd hm (by simp)
        · rcases haf with e | e | e <;> rw [e] at hm <;> exact absurd hm (by simp)
      · constructor
        · intro h2
          exfalso
          omega
        · rintro ⟨hc, -, -⟩
          exact absurd hc (by simp)
  | textClip j =>
      have hF : (if s.final_video_clip = some (Handle.textClip j) then 1 else 0) = 0 :=
        ite_count_zero5 hf (by simp) (by simp) (by simp) (by simp)
      have hB : (if s.base_video = some (Handle.textClip j) then 1 else 0) = 0 :=
        ite_count_zero2 hb (by simp)
      have hA : (if s.audio_segment_final_for_video = some (Handle.textClip j) then 1 else 0) = 0 :=
        ite_count_zero3 haf (by simp) (by simp)
      have hTm : (if s.temp_audio_segment_intermediate = some (Handle.textClip j) then 1 else 0) = 0 :=
        ite_count_zero2 htm (by simp)
      have hFu : (if s.full_audio_clip_main = some (Handle.textClip j) then 1 else 0) = 0 :=
        ite_count_zero2 hfu (by simp)
      have hS : countH (Handle.textClip j) ((List.range n).map Handle.slide) = 0 :=
        countH_slides_of_ne (fun i => by simp) n
      have hT : countH (Handle.textClip j) ((List.range m).map Handle.textClip) ≤ 1 :=
        countH_le_one_of_nodup (nodup_textClips m)
      rw [hF, hB, hA, hTm, hFu, hS]
      refine ⟨?_, by omega, ?_⟩
      · intro htr
        unfold tracked at htr
        rw [hs, ht] at htr
        rcases htr with hm | hm | hm | hm | hm | hm | hm
        · exact absurd hm (by simp)
        · have := countH_pos_of_mem hm
          omega
        · rcases hb with e | e <;> rw [e] at hm <;> exact absurd hm (by simp)
        · rcases hf with e | e | e | e | e <;> rw [e] at hm <;> exact absurd hm (by simp)
        · rcases hfu with e | e <;> rw [e] at hm <;> exact absurd hm (by simp)
        · rcases htm with e | e <;> rw [e] at hm <;> exact absurd hm (by simp)
        · rcases haf with e | e | e <;> rw [e] at hm <;> exact absurd hm (by simp)
      · constructor
        · intro h2
          exfalso
          omega
        · rintro ⟨hc, -, -⟩
          exact absurd hc (by simp)
  | baseVideo =>
      have hS : countH Handle.baseVideo ((List.range n).map Handle.slide) = 0 :=
        countH_slides_of_ne (fun i => by simp) n
      have hT : countH Handle.baseVideo ((List.range m).map Handle.textClip) = 0 :=
        countH_textClips_of_ne (fun j => by simp) m
      have hA : (if s.audio_segment_final_for_video = some (Handle.baseVideo) then 1 else 0) = 0 :=
        ite_count_zero3 haf (by simp) (by simp)
      have hTm : (if s.temp_audio_segment_intermediate = some (Handle.baseVideo) then 1 else 0) = 0 :=
        ite_count_zero2 htm (by simp)
      have hFu : (if s.full_audio_clip_main = some (Handle.baseVideo) then 1 else 0) = 0 :=
        ite_count_zero2 hfu (by simp)
      rw [hS, hT, hA, hTm, hFu]
      have hF1 := ite_count_le_one s.final_video_clip Handle.baseVideo
      have hB1 := ite_count_le_one s.base_video Handle.baseVideo
      refine ⟨?_, by omega, ?_⟩
      · intro htr
        unfold tracked at htr
        rw [hs, ht] at htr
        rcases htr with hm | hm | hm | hm | hm | hm | hm
        · exact absurd hm (by simp)
        · exact absurd hm (by simp)
        · rw [if_pos hm]
          omega
        · rw [if_pos hm]
          omega
        · rcases hfu with e | e <;> rw [e] at hm <;> exact absurd hm (by simp)
        · rcases htm with e | e <;> rw [e] at hm <;> exact absurd hm (by simp)
        · rcases haf with e | e | e <;> rw [e] at hm <;> exact absurd hm (by simp)
      · constructor
        · intro h2
          by_cases f1 : s.final_video_clip = some Handle.baseVideo
          · by_cases b1 : s.base_video = some Handle.baseVideo
            · exact ⟨rfl, f1, b1⟩
            · rw [if_pos f1, if_neg b1] at h2
              exfalso
              omega
          · rw [if_neg f1] at h2
            exfalso
            omega
        · rintro ⟨-, f1, b1⟩
          rw [if_pos f1, if_pos b1]
  | compositeTimed =>
      have hS : countH Handle.compositeTimed ((List.range n).map Handle.slide) = 0 :=
        countH_slides_of_ne (fun i => by simp) n
      have hT : countH Handle.compositeTimed ((List.range m).map Handle.textClip) = 0 :=
        countH_textClips_of_ne (fun j => by simp) m
      have hB : (if s.base_video = some (Handle.compositeTimed) then 1 else 0) = 0 :=
        ite_count_zero2 hb (by simp)
      have hA : (if s.audio_segment_final_for_video = some (Handle.compositeTimed) then 1 else 0) = 0 :=
        ite_count_zero3 haf (by simp) (by simp)
      have hTm : (if s.temp_audio_segment_intermediate = some (Handle.compositeTimed) then 1 else 0) = 0 :=
        ite_count_zero2 htm (by simp)
      have hFu : (if s.full_audio_clip_main = some (Handle.compositeTimed) then 1 else 0) = 0 :=
        ite_count_zero2 hfu (by simp)
      rw [hS, hT, hB, hA, hTm, hFu]
      have hF1 := ite_count_le_one s.final_video_clip Handle.compositeTimed
      refine ⟨?_, by omega, ?_⟩
      · intro htr
        unfold tracked at htr
        rw [hs, ht] at htr
        rcases htr with hm | hm | hm | hm | hm | hm | hm
        · exact absurd hm (by simp)
        · exact absurd hm (by simp)
        · rcases hb with e | e <;> rw [e] at hm <;> exact absurd hm (by simp)
        · rw [if_pos hm]
        · rcases hfu with e | e <;> rw [e] at hm <;> exact absurd hm (by simp)
        · rcases htm with e | e <;> rw [e] at hm <;> exact absurd hm (by simp)
        · rcases haf with e | e | e <;> rw [e] at hm <;> exact absurd hm (by simp)
      · constructor
        · intro h2
          exfalso
          omega
        · rintro ⟨hc, -, -⟩
          exact absurd hc (by simp)
  | finalSilent =>
      have hS : countH Handle.finalSilent ((List.range n).map Handle.slide) = 0 :=
        countH_slides_of_ne (fun i => by simp) n
      have hT : countH Handle.finalSilent ((List.range m).map Handle.textClip) = 0 :=
        countH_textClips_of_ne (fun j => by simp) m
      have hB : (if s.base_video = some (Handle.finalSilent) then 1 else 0) = 0 :=
        ite_count_zero2 hb (by simp)
      have hA : (if s.audio_segment_final_for_video = some (Handle.finalSilent) then 1 else 0) = 0 :=
        ite_count_zero3 haf (by simp) (by simp)
      have hTm : (if s.temp_audio_segment_intermediate = some (Handle.finalSilent) then 1 else 0) = 0 :=
        ite_count_zero2 htm (by simp)
      have hFu : (if s.full_audio_clip_main = some (Handle.finalSilent) then 1 else 0) = 0 :=
        ite_count_zero2 hfu (by simp)
      rw [hS, hT, hB, hA, hTm, hFu]
      have hF1 := ite_count_le_one s.final_video_clip Handle.finalSilent
      refine ⟨?_, by omega, ?_⟩
      · intro htr
        unfold tracked at htr
        rw [hs, ht] at htr
        rcases htr with hm | hm | hm | hm | hm | hm | hm
        · exact absurd hm (by simp)
        · exact absurd hm (by simp)
        · rcases hb with e | e <;> rw [e] at hm <;> exact absurd hm (by simp)
        · rw [if_pos hm]
        · rcases hfu with e | e <;> rw [e] at hm <;> exact absurd hm (by simp)
        · rcases htm with e | e <;> rw [e] at hm <;> exact absurd hm (by simp)
        · rcases haf with e | e | e <;> rw [e] at hm <;> exact absurd hm (by simp)
      · constructor
        · intro h2
          exfalso
          omega
        · rintro ⟨hc, -, -⟩
          exact absurd hc (by simp)
  | finalWithAudio =>
      have hS : countH Handle.finalWithAudio ((List.range n).map Handle.slide) = 0 :=
        countH_slides_of_ne (fun i => by simp) n
      have hT : countH Handle.finalWithAudio ((List.range m).map Handle.textClip) = 0 :=
        countH_textClips_of_ne (fun j => by simp) m
      have hB : (if s.base_video = some (Handle.finalWithAudio) then 1 else 0) = 0 :=
        ite_count_zero2 hb (by simp)
      have hA : (if s.audio_segment_final_for_video = some (Handle.finalWithAudio) then 1 else 0) = 0 :=
        ite_count_zero3 haf (by simp) (by simp)
      have hTm : (if s.temp_audio_segment_intermediate = some (Handle.finalWithAudio) then 1 else 0) = 0 :=
        ite_count_zero2 htm (by simp)
      have hFu : (if s.full_audio_clip_main = some (Handle.finalWithAudio) then 1 else 0) = 0 :=
        ite_count_zero2 hfu (by simp)
      rw [hS, hT, hB, hA, hTm, hFu]
      have hF1 := ite_count_le_one s.final_video_clip Handle.finalWithAudio
      refine ⟨?_, by omega, ?_⟩
      · intro htr
        unfold tracked at htr
        rw [hs, ht] at htr
        rcases htr with hm | hm | hm | hm | hm | hm | hm
        · exact absurd hm (by simp)
        · exact absurd hm (by simp)
        · rcases hb with e | e <;> rw [e] at hm <;> exact absurd hm (by simp)
        · rw [if_pos hm]
        · rcases hfu with e | e <;> rw [e] at hm <;> exact absurd hm (by simp)
        · rcases htm with e | e <;> rw [e] at hm <;> exact absurd hm (by simp)
        · rcases haf with e | e | e <;> rw [e] at hm <;> exact absurd hm (by simp)
      · constructor
        · intro h2
          exfalso
          omega
        · rintro ⟨hc, -, -⟩
          exact absurd hc (by simp)
  | fullAudio =>
      have hS : countH Handle.fullAudio ((List.range n).map Handle.slide) = 0 :=
        countH_slides_of_ne (fun i => by simp) n
      have hT : countH Handle.fullAudio ((List.range m).map Handle.textClip) = 0 :=
        countH_textClips_of_ne (fun j => by simp) m
      have hF : (if s.final_video_clip = some (Handle.fullAudio) then 1 else 0) = 0 :=
        ite_count_zero5 hf (by simp) (by simp) (by simp) (by simp)
      have hB : (if s.base_video = some (Handle.fullAudio) then 1 else 0) = 0 :=
        ite_count_zero2 hb (by simp)
      have hA : (if s.audio_segment_final_for_video = some (Handle.fullAudio) then 1 else 0) = 0 :=
        ite_count_zero3 haf (by simp) (by simp)
      have hTm : (if s.temp_audio_segment_intermediate = some (Handle.fullAudio) then 1 else 0) = 0 :=
        ite_count_zero2 htm (by simp)
      rw [hS, hT, hF, hB, hA, hTm]
      have hFu1 := ite_count_le_one s.full_audio_clip_main Handle.fullAudio
      refine ⟨?_, by omega, ?_⟩
      · intro htr
        unfold tracked at htr
        rw [hs, ht] at htr
        rcases htr with hm | hm | hm | hm | hm | hm | hm
        · exact absurd hm (by simp)
        · exact absurd hm (by simp)
        · rcases hb with e | e <;> rw [e] at hm <;> exact absurd hm (by simp)
        · rcases hf with e | e | e | e | e <;> rw [e] at hm <;> exact absurd hm (by simp)
        · rw [if_pos hm]
        · rcases htm with e | e <;> rw [e] at hm <;> exact absurd hm (by simp)
        · rcases haf with e | e | e <;> rw [e] at hm <;> exact absurd hm (by simp)
      · constructor
        · intro h2
          exfalso
          omega
        · rintro ⟨hc, -, -⟩
          exact absurd hc (by simp)
  | tempSegment =>
      have hS : countH Handle.tempSegment ((List.range n).map Handle.slide) = 0 :=
        countH_slides_of_ne (fun i => by simp) n
      have hT : countH Handle.tempSegment ((List.range m).map Handle.textClip) = 0 :=
        countH_textClips_of_ne (fun j => by simp) m
      have hF : (if s.final_video_clip = some (Handle.tempSegment) then 1 else 0) = 0 :=
        ite_count_zero5 hf (by simp) (by simp) (by simp) (by simp)
      have hB : (if s.base_video = some (Handle.tempSegment) then 1 else 0) = 0 :=
        ite_count_zero2 hb (by simp)
      have hA : (if s.audio_segment_final_for_video = some (Handle.tempSegment) then 1 else 0) = 0 :=
        ite_count_zero3 haf (by simp) (by simp)
      have hFu : (if s.full_audio_clip_main = some (Handle.tempSegment) then 1 else 0) = 0 :=
        ite_count_zero2 hfu (by simp)
      rw [hS, hT, hF, hB, hA, hFu]
      have hTm1 := ite_count_le_one s.temp_audio_segment_intermediate Handle.tempSegment
      refine ⟨?_, by omega, ?_⟩
      · intro htr
        unfold tracked at htr
        rw [hs, ht] at htr
        rcases htr with hm | hm | hm | hm | hm | hm | hm
        · exact absurd hm (by simp)
        · exact absurd hm (by simp)
        · rcases hb with e | e <;> rw [e] at hm <;> exact absurd hm (by simp)
        · rcases hf with e | e | e | e | e <;> rw [e] at hm <;> exact absurd hm (by simp)
        · rcases hfu with e | e <;> rw [e] at hm <;> exact absurd hm (by simp)
        · rw [if_pos hm]
        · rcases haf with e | e | e <;> rw [e] at hm <;> exact absurd hm (by simp)
      · constructor
        · intro h2
          exfalso
          omega
        · rintro ⟨hc, -, -⟩
          exact absurd hc (by simp)
  | audioLooped =>
      have hS : countH Handle.audioLooped ((List.range n).map Handle.slide) = 0 :=
        countH_slides_of_ne (fun i => by simp) n
      have hT : countH Handle.audioLooped ((List.range m).map Handle.textClip) = 0 :=
        countH_textClips_of_ne (fun j => by simp) m
      have hF : (if s.final_video_clip = some (Handle.audioLooped) then 1 else 0) = 0 :=
        ite_count_zero5 hf (by simp) (by simp) (by simp) (by simp)
      have hB : (if s.base_video = some (Handle.audioLooped) then 1 else 0) = 0 :=
        ite_count_zero2 hb (by simp)
      have hTm : (if s.temp_audio_segment_intermediate = some (Handle.audioLooped) then 1 else 0) = 0 :=
        ite_count_zero2 htm (by simp)
      have hFu : (if s.full_audio_clip_main = some (Handle.audioLooped) then 1 else 0) = 0 :=
        ite_count_zero2 hfu (by simp)
      rw [hS, hT, hF, hB, hTm, hFu]
      have hA1 := ite_count_le_one s.audio_segment_final_for_video Handle.audioLooped
      refine ⟨?_, by omega, ?_⟩
      · intro htr
        unfold tracked at htr
        rw [hs, ht] at htr
        rcases htr with hm | hm | hm | hm | hm | hm | hm
        · exact absurd hm (by simp)
        · exact absurd hm (by simp)
        · rcases hb with e | e <;> rw [e] at hm <;> exact absurd hm (by simp)
        · rcases hf with e | e | e | e | e <;> rw [e] at hm <;> exact absurd hm (by simp)
        · rcases hfu with e | e <;> rw [e] at hm <;> exact absurd hm (by simp)
        · rcases htm with e | e <;> rw [e] at hm <;> exact absurd hm (by simp)
        · rw [if_pos hm]
      · constructor
        · intro h2
          exfalso
          omega
        · rintro ⟨hc, -, -⟩
          exact absurd hc (by simp)
  | audioTruncated =>
      have hS : countH Handle.audioTruncated ((List.range n).map Handle.slide) = 0 :=
        countH_slides_of_ne (fun i => by simp) n
      have hT : countH Handle.audioTruncated ((List.range m).map Handle.textClip) = 0 :=
        countH_textClips_of_ne (fun j => by simp) m
      have hF : (if s.final_video_clip = some (Handle.audioTruncated) then 1 else 0) = 0 :=
        ite_count_zero5 hf (by simp) (by simp) (by simp) (by simp)
      have hB : (if s.base_video = some (Handle.audioTruncated) then 1 else 0) = 0 :=
        ite_count_zero2 hb (by simp)
      have hTm : (if s.temp_audio_segment_intermediate = some (Handle.audioTruncated) then 1 else 0) = 0 :=
        ite_count_zero2 htm (by simp)
      have hFu : (if s.full_audio_clip_main = some (Handle.audioTruncated) then 1 else 0) = 0 :=
        ite_count_zero2 hfu (by simp)
      rw [hS, hT, hF, hB, hTm, hFu]
      have hA1 := ite_count_le_one s.audio_segment_final_for_video Handle.audioTruncated
      refine ⟨?_, by omega, ?_⟩
      · intro htr
        unfold tracked at htr
        rw [hs, ht] at htr
        rcases htr with hm | hm | hm | hm | hm | hm | hm
        · exact absurd hm (by simp)
        · exact absurd hm (by simp)
        · rcases hb with e | e <;> rw [e] at hm <;> exact absurd hm (by simp)
        · rcases hf with e | e | e | e | e <;> rw [e] at hm <;> exact absurd hm (by simp)
        · rcases hfu with e | e <;> rw [e] at hm <;> exact absurd hm (by simp)
        · rcases htm with e | e <;> rw [e] at hm <;> exact absurd hm (by simp)
        · rw [if_pos hm]
      · constructor
        · intro h2
          exfalso
          omega
        · rintro ⟨hc, -, -⟩
          exact absurd hc (by simp)

/-- Request with one image and a missing audio file: the pipeline fails at the
audio existence check (line 397-398) while `final_video_clip` still aliases
`base_video` (no text clips were composited). -/
def C6_failing_input : LogicInput :=
  ⟨1, 3, 1, 0, none, [], "song.mp3", false, true, 7, true, 10, true⟩

/-- Request reaching the audio reader-health check with a broken reader. -/
def C6_reader_fail_input : LogicInput :=
  ⟨2, 3, 1, 0, none, [], "song.mp3", true, true, 5, false, 10, true⟩

/-- C6 (counterexample): on the exit path "no text overlays, audio file
missing", `final_video_clip` and `base_video` reference the same object
(line 380), and the `finally` block closes that object twice (lines 485-490),
refuting "never twice". -/
theorem C6_counterexample :
    (create_video_from_images_and_music_logic C6_failing_input).2.final_video_clip
        = some Handle.baseVideo ∧
    (create_video_from_images_and_music_logic C6_failing_input).2.base_video
        = some Handle.baseVideo ∧
    countH Handle.baseVideo
      (finally_closes (create_video_from_images_and_music_logic C6_failing_input).2)
      = 2 := by
  refine ⟨rfl, rfl, rfl⟩

/-- C6 (amended): on every modelled exit path, each object still referenced by
a cleanup variable when the `finally` block runs is closed at least once and
no object is closed more than twice; an object is closed twice exactly when it
is the base video still aliased by `final_video_clip` (which happens when no
text layers were composited and the pipeline exited before `set_audio` rebound
`final_video_clip`); in particular the audio handles are never double-closed. -/
theorem C6_cleanup_close_counts_amended (inp : LogicInput) (h : Handle) :
    (tracked (create_video_from_images_and_music_logic inp).2 h →
      1 ≤ countH h
        (finally_closes (create_video_from_images_and_music_logic inp).2)) ∧
    countH h (finally_closes (create_video_from_images_and_music_logic inp).2) ≤ 2 ∧
    (countH h (finally_closes (create_video_from_images_and_music_logic inp).2) = 2 ↔
      h = Handle.baseVideo ∧
      (create_video_from_images_and_music_logic inp).2.final_video_clip
        = some Handle.baseVideo ∧
      (create_video_from_images_and_music_logic inp).2.base_video
        = some Handle.baseVideo) :=
  cleanup_counts _ (run_state_inv inp) h

/-- C6 witness: the opened source-audio handle is closed (at least once) on the
reader-failure exit path. -/
theorem C6_cleanup_close_counts_amended_witness :
    1 ≤ countH Handle.fullAudio
      (finally_closes
        (create_video_from_images_and_music_logic C6_reader_fail_input).2) :=
  (C6_cleanup_close_counts_amended C6_reader_fail_input Handle.fullAudio).1
    (by unfold tracked; decide)

/-- Request whose audio file is a missing path. -/
def C8_failing_input : LogicInput :=
  ⟨1, 3, 1, 0, none, [], "track.mp3", false, true, 7, true, 10, true⟩

/-- C8: for a request with at least one image and a valid display duration
whose audio file is missing, unreadable, or zero bytes, the pipeline returns
one of the three descriptive audio error messages of lines 397-402, no audio
clip handle is ever opened (`AudioFileClip` at line 405 is never reached, so
all three audio variables are still `None` at cleanup), the request fails, and
after the caller's failure cleanup (lines 616-619) no output file persists. -/
theorem C8_audio_invalid_fails_fast (inp : LogicInput)
    (hn : inp.num_images ≠ 0) (hd : 0 < inp.image_display_duration)
    (hbad : inp.audio_file_exists = false ∨ inp.audio_file_readable = false ∨
      inp.audio_file_size = 0) :
    (∃ msg, (create_video_from_images_and_music_logic inp).1 = Except.error msg ∧
      (msg = "Audio file does not exist at path: " ++ inp.audio_path ∨
       msg = "Audio file is not readable at path: " ++ inp.audio_path ∨
       msg = "Audio file is empty at path: " ++ inp.audio_path)) ∧
    (create_video_from_images_and_music_logic inp).2.full_audio_clip_main = none ∧
    (create_video_from_images_and_music_logic inp).2.temp_audio_segment_intermediate
      = none ∧
    (create_video_from_images_and_music_logic inp).2.audio_segment_final_for_video
      = none ∧
    output_file_after_cleanup false true = false := by
  have hd' : ¬ inp.image_display_duration ≤ 0 := not_le.mpr hd
  unfold create_video_from_images_and_music_logic
  rw [if_neg hn, if_neg hd']
  rcases hbad with hb | hb | hb
  · rw [if_pos hb]
    exact ⟨⟨_, rfl, Or.inl rfl⟩, rfl, rfl, rfl, rfl⟩
  · by_cases he : inp.audio_file_exists = false
    · rw [if_pos he]
      exact ⟨⟨_, rfl, Or.inl rfl⟩, rfl, rfl, rfl, rfl⟩
    · rw [if_neg he, if_pos hb]
      exact ⟨⟨_, rfl, Or.inr (Or.inl rfl)⟩, rfl, rfl, rfl, rfl⟩
  · by_cases he : inp.audio_file_exists = false
    · rw [if_pos he]
      exact ⟨⟨_, rfl, Or.inl rfl⟩, rfl, rfl, rfl, rfl⟩
    · by_cases hr : inp.audio_file_readable = false
      · rw [if_neg he, if_pos hr]
        exact ⟨⟨_, rfl, Or.inr (Or.inl rfl)⟩, rfl, rfl, rfl, rfl⟩
      · rw [if_neg he, if_neg hr, if_pos hb]
        exact ⟨⟨_, rfl, Or.inr (Or.inr rfl)⟩, rfl, rfl, rfl, rfl⟩

/-- C8 witness: concrete request with a missing audio file. -/
theorem C8_audio_invalid_fails_fast_witness :
    (∃ msg, (create_video_from_images_and_music_logic C8_failing_input).1
        = Except.error msg ∧
      (msg = "Audio file does not exist at path: " ++ C8_failing_input.audio_path ∨
       msg = "Audio file is not readable at path: " ++ C8_failing_input.audio_path ∨
       msg = "Audio file is empty at path: " ++ C8_failing_input.audio_path)) ∧
    (create_video_from_images_and_music_logic C8_failing_input).2.full_audio_clip_main
      = none ∧
    (create_video_from_images_and_music_logic
      C8_failing_input).2.temp_audio_segment_intermediate = none ∧
    (create_video_from_images_and_music_logic
      C8_failing_input).2.audio_segment_final_for_video = none ∧
    output_file_after_cleanup false true = false :=
  C8_audio_invalid_fails_fast C8_failing_input (by decide) (by decide) (Or.inl rfl)
